import Mathlib

/-!
Verification of the validation-task assignment workflow of a document
management system's admin module (`documents/admin.py`, `documents/forms.py`).

The embedding models the database state (users, tags, documents, validation
tasks), the `AssignValidationTaskForm` validation rules, the bulk action
`DocumentAdmin.assign_validation_task`, and the `ValidationTaskAdmin`
permission hooks `get_queryset` and `has_add_permission`.
-/

namespace Ged

/-- A user of the system: `django.contrib.auth.models.User`, restricted to the
attributes this module reads (`is_superuser` flag and group names). -/
structure User where
  id : Nat
  is_superuser : Bool
  groups : List String
  deriving DecidableEq, Repr

/-- A tag (`documents.models.Tag`), restricted to the attributes this module
reads: its primary key and its optional `due_date`.  Dates are modelled as
integers (a day count). -/
structure Tag where
  id : Nat
  due_date : Option Int
  deriving DecidableEq, Repr

/-- A document (`documents.models.Document`), restricted to its primary key and
its many-to-many tag set (`doc.tags`), stored as a duplicate-free list of tag
primary keys. -/
structure Document where
  id : Nat
  tags : List Nat
  deriving DecidableEq, Repr

/-- A `documents.models.ValidationTask` row together with its many-to-many
`documents` link set, as created by `ValidationTask.objects.create(...)`
followed by `task.documents.set(documents)`. -/
structure ValidationTask where
  id : Nat
  assigned_to : Nat
  created_by : Nat
  tag : Option Nat
  note : String
  due_date : Option Int
  documents : List Nat
  deriving DecidableEq, Repr

/-- The database state visible to this module. -/
structure DB where
  users : List User
  tags : List Tag
  documents : List Document
  tasks : List ValidationTask
  nextTaskId : Nat
  deriving DecidableEq, Repr

/-- The POST payload read by `AssignValidationTaskForm` and by
`assign_validation_task`:
`_selected_action` (`request.POST.getlist` of document primary keys),
`assigned_to` and `tag` (model-choice fields, `none` when left blank),
and the free-text `note`. -/
structure FormData where
  selected_action : List Nat
  assigned_to : Option Nat
  tag : Option Nat
  note : String
  deriving DecidableEq, Repr

/-- A request to the admin action: the authenticated `request.user` (by id),
whether the POST contains the `apply` key, and the POSTed form fields. -/
structure Request where
  user : Nat
  apply : Bool
  fm : FormData
  deriving DecidableEq, Repr

/-- Outcome of `DocumentAdmin.assign_validation_task`: either the
`HttpResponseRedirect` taken on success (carrying the count shown in the
success message), or a render of the intermediate page — with the bound,
invalid form, or with an unbound form whose `initial` pre-fills the selected
ids and the assignee.  Both renders carry the action `queryset` placed in the
template context. -/
inductive Outcome where
  | redirect (count : Nat)
  | renderBound (data : FormData) (docs : List Nat)
  | renderInitial (selectedIds : List Nat) (assignedTo : Nat) (docs : List Nat)
  deriving DecidableEq, Repr

/-- `User.objects.all()` lookup backing the `assigned_to` model-choice field. -/
def lookupUser (db : DB) (uid : Nat) : Option User :=
  db.users.find? (fun u => u.id == uid)

/-- `Tag.objects.all()` lookup backing the `tag` model-choice field. -/
def lookupTag (db : DB) (tid : Nat) : Option Tag :=
  db.tags.find? (fun t => t.id == tid)

/-- `form.cleaned_data[assigned_to]`: the submitted user id resolved against
the user table; `none` when the field is blank or does not resolve. -/
def cleanedUserOf (db : DB) (f : FormData) : Option User :=
  f.assigned_to.bind (lookupUser db)

/-- `form.cleaned_data[tag]`: the submitted tag id resolved against the tag
table; `none` when the field is blank or does not resolve. -/
def cleanedTagOf (db : DB) (f : FormData) : Option Tag :=
  f.tag.bind (lookupTag db)

/-- Whether a document with the given primary key exists. -/
def documentExists (db : DB) (i : Nat) : Bool :=
  db.documents.any (fun d => d.id == i)

/-- `form.is_valid()` for `AssignValidationTaskForm`: `_selected_action` is a
required field whose `MultipleHiddenInput` value is the POSTed id list (an
empty list is an empty value, failing the required check); `assigned_to` and
`tag` are required model-choice fields that must resolve; `note` is optional. -/
def formIsValid (db : DB) (f : FormData) : Bool :=
  !f.selected_action.isEmpty && (cleanedUserOf db f).isSome && (cleanedTagOf db f).isSome

/-- The expression `tag.due_date if tag else None` seeding the task's
`due_date` from the cleaned tag. -/
def dueDateFrom : Option Tag → Option Int
  | some t => t.due_date
  | none => none

/-- `doc.tags.add(tag)`: Django m2m `add` is a no-op when the relation already
exists, so the tag id is appended only when absent. -/
def addTagToDoc (d : Document) (tid : Nat) : Document :=
  if d.tags.contains tid then d else { d with tags := d.tags ++ [tid] }

/-- `Document.objects.filter(pk__in=selected_ids)`: the documents whose
primary key occurs in the submitted id list. -/
def resolvedDocuments (db : DB) (sel : List Nat) : List Document :=
  db.documents.filter (fun d => sel.contains d.id)

/-- `DocumentAdmin.assign_validation_task(request, queryset)`.  When `apply`
is in the POST, the form is bound and validated; on success one
`ValidationTask` is created with the cleaned fields, `created_by` set to
`request.user` and `due_date` seeded from the tag, the documents resolving
from `_selected_action` are linked to it and each receives the tag, and the
response redirects reporting `documents.count()`.  On validation failure, or
when `apply` is absent (first render, with `assigned_to` pre-filled with
`request.user`), the intermediate page is rendered and the state unchanged. -/
def assign_validation_task (db : DB) (req : Request) (queryset : List Nat) :
    Outcome × DB :=
  if req.apply then
    match cleanedUserOf db req.fm, cleanedTagOf db req.fm with
    | some u, some t =>
      if req.fm.selected_action.isEmpty then
        (Outcome.renderBound req.fm queryset, db)
      else
        let resolved := resolvedDocuments db req.fm.selected_action
        let task : ValidationTask :=
          { id := db.nextTaskId
            assigned_to := u.id
            created_by := req.user
            tag := some t.id
            note := req.fm.note
            due_date := dueDateFrom (some t)
            documents := resolved.map Document.id }
        let docs := db.documents.map fun d =>
          if req.fm.selected_action.contains d.id then addTagToDoc d t.id else d
        (Outcome.redirect resolved.length,
          { db with
              documents := docs
              tasks := db.tasks ++ [task]
              nextTaskId := db.nextTaskId + 1 })
    | _, _ => (Outcome.renderBound req.fm queryset, db)
  else
    (Outcome.renderInitial req.fm.selected_action req.user queryset, db)

/-- `ValidationTaskAdmin.get_queryset(request)`: a superuser sees every task;
a non-superuser in the group named Staff sees the union of tasks they created
and tasks assigned to them; anyone else sees none. -/
def get_queryset (db : DB) (u : User) : List ValidationTask :=
  if !u.is_superuser then
    if u.groups.contains "Staff" then
      db.tasks.filter (fun t => t.created_by == u.id || t.assigned_to == u.id)
    else
      []
  else
    db.tasks

/-- `ValidationTaskAdmin.has_add_permission(request)`. -/
def has_add_permission (u : User) : Bool :=
  if u.is_superuser || u.groups.contains "Staff" then true else false

/-! Sample data used by witnesses and counterexamples. -/

/-- A non-superuser member of the Staff group. -/
def staffU : User := { id := 1, is_superuser := false, groups := ["Staff"] }

/-- A user with no privilege. -/
def plainU : User := { id := 2, is_superuser := false, groups := [] }

/-- A superuser. -/
def superU : User := { id := 3, is_superuser := true, groups := [] }

/-- A sample database: three users, two tags (one with a due date), two
documents (101 already carries tag 10), and one pre-existing task. -/
def dbA : DB :=
  { users := [staffU, plainU, superU]
    tags := [{ id := 10, due_date := some 20240601 }, { id := 11, due_date := none }]
    documents := [{ id := 100, tags := [] }, { id := 101, tags := [10] }]
    tasks := [{ id := 0, assigned_to := 1, created_by := 3, tag := some 11,
                note := "initial", due_date := none, documents := [101] }]
    nextTaskId := 1 }

/-- A fully valid apply-phase submission: existing assignee and tag, id 999
not resolving to any document. -/
def reqValid : Request :=
  { user := 2, apply := true
    fm := { selected_action := [100, 101, 999], assigned_to := some 1,
            tag := some 10, note := "please check" } }

/-- An apply-phase submission with the assignee field left blank. -/
def reqBlankAssignee : Request :=
  { user := 1, apply := true
    fm := { selected_action := [100], assigned_to := none,
            tag := some 10, note := "" } }

/-- An apply-phase submission with a valid assignee and document ids but no
tag supplied. -/
def reqNoTag : Request :=
  { user := 1, apply := true
    fm := { selected_action := [100], assigned_to := some 1,
            tag := none, note := "" } }

/-- An apply-phase submission with valid assignee and tag but an empty
selected-id list. -/
def reqEmptySel : Request :=
  { user := 1, apply := true
    fm := { selected_action := [], assigned_to := some 1,
            tag := some 10, note := "" } }

/-- The first-render request: `apply` absent from the POST. -/
def reqDisplay : Request :=
  { user := 1, apply := false
    fm := { selected_action := [100, 101], assigned_to := none,
            tag := none, note := "" } }

/-- An apply-phase submission with valid assignee and tag whose id list is
non-empty but resolves to no existing document. -/
def reqGhostIds : Request :=
  { user := 1, apply := true
    fm := { selected_action := [999, 998], assigned_to := some 1,
            tag := some 10, note := "" } }

/-! Helper lemmas shared by the claim theorems. -/

/-- Characterisation of form validity: non-empty id list, resolving assignee,
resolving tag. -/
theorem formIsValid_iff (db : DB) (f : FormData) :
    formIsValid db f = true ↔
      f.selected_action ≠ [] ∧
        (∃ u : User, cleanedUserOf db f = some u) ∧
        (∃ t : Tag, cleanedTagOf db f = some t) := by
  simp [formIsValid, Option.isSome_iff_exists, List.isEmpty_iff, and_assoc]

/-- Reduction of the action on a valid apply-phase submission. -/
theorem assign_apply_valid_eq (db : DB) (req : Request) (qs : List Nat)
    (u : User) (t : Tag)
    (ha : req.apply = true)
    (hu : cleanedUserOf db req.fm = some u)
    (ht : cleanedTagOf db req.fm = some t)
    (hne : req.fm.selected_action ≠ []) :
    assign_validation_task db req qs =
      (Outcome.redirect (resolvedDocuments db req.fm.selected_action).length,
        { db with
            documents := db.documents.map fun d =>
              if req.fm.selected_action.contains d.id then addTagToDoc d t.id else d
            tasks := db.tasks ++
              [{ id := db.nextTaskId
                 assigned_to := u.id
                 created_by := req.user
                 tag := some t.id
                 note := req.fm.note
                 due_date := dueDateFrom (some t)
                 documents := (resolvedDocuments db req.fm.selected_action).map Document.id }]
            nextTaskId := db.nextTaskId + 1 }) := by
  have he : req.fm.selected_action.isEmpty = false := by
    cases hsel : req.fm.selected_action with
    | nil => exact absurd hsel hne
    | cons a l => rfl
  unfold assign_validation_task
  rw [ha, hu, ht, he]
  rfl

/-- Reduction of the action on an invalid apply-phase submission. -/
theorem assign_apply_invalid_eq (db : DB) (req : Request) (qs : List Nat)
    (ha : req.apply = true) (hv : formIsValid db req.fm = false) :
    assign_validation_task db req qs = (Outcome.renderBound req.fm qs, db) := by
  unfold assign_validation_task
  rw [ha]
  cases hu : cleanedUserOf db req.fm with
  | none => rfl
  | some u =>
    cases ht : cleanedTagOf db req.fm with
    | none => rfl
    | some t =>
      have he : req.fm.selected_action.isEmpty = true := by
        unfold formIsValid at hv
        rw [hu, ht] at hv
        simpa using hv
      rw [he]
      rfl

/-- `addTagToDoc` never changes the document's primary key. -/
theorem addTagToDoc_id (d : Document) (tid : Nat) : (addTagToDoc d tid).id = d.id := by
  unfold addTagToDoc
  split <;> rfl

/-- `doc.tags.add` is idempotent: adding the same tag twice equals adding it
once. -/
theorem addTagToDoc_idem (d : Document) (tid : Nat) :
    addTagToDoc (addTagToDoc d tid) tid = addTagToDoc d tid := by
  by_cases hc : tid ∈ d.tags
  · simp [addTagToDoc, hc]
  · simp [addTagToDoc, hc]

/-- `doc.tags.add` preserves freedom from duplicates. -/
theorem addTagToDoc_nodup (d : Document) (tid : Nat) (h : d.tags.Nodup) :
    (addTagToDoc d tid).tags.Nodup := by
  by_cases hc : tid ∈ d.tags
  · simpa [addTagToDoc, hc] using h
  · simp [addTagToDoc, hc, List.nodup_append, h]

/-- After `doc.tags.add(tag)` a duplicate-free tag set holds exactly one
occurrence of the tag. -/
theorem addTagToDoc_count (d : Document) (tid : Nat) (h : d.tags.Nodup) :
    (addTagToDoc d tid).tags.count tid = 1 := by
  by_cases hc : tid ∈ d.tags
  · have he : addTagToDoc d tid = d := by simp [addTagToDoc, hc]
    rw [he]
    exact List.count_eq_one_of_mem h hc
  · simp [addTagToDoc, hc, List.count_append,
      List.count_eq_zero_of_not_mem hc, List.count_singleton_self]

/-! Claim theorems. -/

/-- C1: a valid apply-phase submission creates exactly one ValidationTask;
its linked-document set is exactly the submitted ids that resolve to existing
documents (unresolvable ids are silently dropped without failing), and the
reported success count is the size of that resolved set. -/
theorem C1_apply_creates_one_task (db : DB) (req : Request) (qs : List Nat)
    (ha : req.apply = true) (hv : formIsValid db req.fm = true)
    (hnd : (db.documents.map Document.id).Nodup) :
    ∃ task : ValidationTask,
      (assign_validation_task db req qs).2.tasks = db.tasks ++ [task] ∧
      task.documents.Nodup ∧
      (∀ i : Nat, i ∈ task.documents ↔
        (i ∈ req.fm.selected_action ∧ documentExists db i = true)) ∧
      (assign_validation_task db req qs).1 = Outcome.redirect task.documents.length := by
  obtain ⟨hne, ⟨u, hu⟩, ⟨t, ht⟩⟩ := (formIsValid_iff db req.fm).mp hv
  rw [assign_apply_valid_eq db req qs u t ha hu ht hne]
  refine ⟨_, rfl, ?_, ?_, ?_⟩
  · exact List.Nodup.sublist ((List.filter_sublist _).map Document.id) hnd
  · intro i
    simp only [resolvedDocuments, List.mem_map, List.mem_filter, documentExists,
      List.any_eq_true, beq_iff_eq, List.contains, List.elem_eq_mem, decide_eq_true_eq]
    constructor
    · rintro ⟨d, ⟨hdm, hdc⟩, rfl⟩
      exact ⟨hdc, d, hdm, rfl⟩
    · rintro ⟨hisel, d, hdm, rfl⟩
      exact ⟨d, ⟨hdm, hisel⟩, rfl⟩
  · simp [List.length_map]

/-- C1 witness: on the sample database the valid submission (ids 100, 101 and
the unresolvable 999) links exactly documents 100 and 101 and reports 2. -/
theorem C1_apply_creates_one_task_witness :
    ∃ task : ValidationTask,
      (assign_validation_task dbA reqValid []).2.tasks = dbA.tasks ++ [task] ∧
      task.documents.Nodup ∧
      (∀ i : Nat, i ∈ task.documents ↔
        (i ∈ reqValid.fm.selected_action ∧ documentExists dbA i = true)) ∧
      (assign_validation_task dbA reqValid []).1 = Outcome.redirect task.documents.length :=
  C1_apply_creates_one_task dbA reqValid [] rfl (by decide) (by decide)

/-- C3: the created task's due-date is the supplied tag's due-date read at
creation time; the seeding expression yields no due-date when no tag is
present; and no later invocation of the action rewrites an existing task, so
the stored due-date is a snapshot. -/
theorem C3_task_due_date_snapshot (db : DB) (req : Request) (qs : List Nat)
    (ha : req.apply = true) (hv : formIsValid db req.fm = true) :
    (∃ t : Tag, cleanedTagOf db req.fm = some t ∧
      ∃ task : ValidationTask,
        (assign_validation_task db req qs).2.tasks = db.tasks ++ [task] ∧
        task.due_date = t.due_date) ∧
    dueDateFrom none = none ∧
    (∀ (db₂ : DB) (req₂ : Request) (qs₂ : List Nat),
      ∃ rest : List ValidationTask,
        (assign_validation_task db₂ req₂ qs₂).2.tasks = db₂.tasks ++ rest) := by
  obtain ⟨hne, ⟨u, hu⟩, ⟨t, ht⟩⟩ := (formIsValid_iff db req.fm).mp hv
  refine ⟨⟨t, ht, ?_⟩, rfl, ?_⟩
  · rw [assign_apply_valid_eq db req qs u t ha hu ht hne]
    exact ⟨_, rfl, rfl⟩
  · intro db₂ req₂ qs₂
    by_cases ha₂ : req₂.apply = true
    · by_cases hv₂ : formIsValid db₂ req₂.fm = true
      · obtain ⟨hne₂, ⟨u₂, hu₂⟩, ⟨t₂, ht₂⟩⟩ := (formIsValid_iff db₂ req₂.fm).mp hv₂
        rw [assign_apply_valid_eq db₂ req₂ qs₂ u₂ t₂ ha₂ hu₂ ht₂ hne₂]
        exact ⟨_, rfl⟩
      · rw [assign_apply_invalid_eq db₂ req₂ qs₂ ha₂ (by simpa using hv₂)]
        refine ⟨[], ?_⟩
        simp
    · have ha₂' : req₂.apply = false := by simpa using ha₂
      unfold assign_validation_task
      rw [ha₂']
      refine ⟨[], ?_⟩
      simp

/-- C3 witness at the valid sample submission: the created task's due-date is
tag 10's due-date, and the tag-less seeding expression is unset. -/
theorem C3_task_due_date_snapshot_witness :
    (∃ t : Tag, cleanedTagOf dbA reqValid.fm = some t ∧
      ∃ task : ValidationTask,
        (assign_validation_task dbA reqValid []).2.tasks = dbA.tasks ++ [task] ∧
        task.due_date = t.due_date) ∧
    dueDateFrom none = none :=
  ⟨(C3_task_due_date_snapshot dbA reqValid [] rfl (by decide)).1,
   (C3_task_due_date_snapshot dbA reqValid [] rfl (by decide)).2.1⟩

/-- C6: after a successful application every document of the resolved link
set carries the assigned tag exactly once in its (duplicate-free) tag set,
and the tag addition is idempotent. -/
theorem C6_tag_propagates_idempotent (db : DB) (req : Request) (qs : List Nat)
    (ha : req.apply = true) (hv : formIsValid db req.fm = true)
    (hnd : ∀ d ∈ db.documents, d.tags.Nodup) :
    ∃ t : Tag, cleanedTagOf db req.fm = some t ∧
      (∀ d' ∈ (assign_validation_task db req qs).2.documents,
          d'.tags.Nodup ∧
          (d'.id ∈ req.fm.selected_action → d'.tags.count t.id = 1)) ∧
      (∀ (d : Document) (tid : Nat),
          addTagToDoc (addTagToDoc d tid) tid = addTagToDoc d tid) := by
  obtain ⟨hne, ⟨u, hu⟩, ⟨t, ht⟩⟩ := (formIsValid_iff db req.fm).mp hv
  refine ⟨t, ht, ?_, addTagToDoc_idem⟩
  rw [assign_apply_valid_eq db req qs u t ha hu ht hne]
  intro d' hd'
  simp only [List.mem_map] at hd'
  obtain ⟨d, hdm, rfl⟩ := hd'
  by_cases hc : req.fm.selected_action.contains d.id = true
  · rw [if_pos hc]
    exact ⟨addTagToDoc_nodup d t.id (hnd d hdm),
           fun _ => addTagToDoc_count d t.id (hnd d hdm)⟩
  · rw [if_neg hc]
    refine ⟨hnd d hdm, fun hmem => ?_⟩
    exact absurd (by simp [List.contains, List.elem_eq_mem, hmem]) hc

/-- C6 witness at the valid sample submission: document 101 already carries
tag 10 and keeps exactly one occurrence of it. -/
theorem C6_tag_propagates_idempotent_witness :
    ∃ t : Tag, cleanedTagOf dbA reqValid.fm = some t ∧
      (∀ d' ∈ (assign_validation_task dbA reqValid []).2.documents,
          d'.tags.Nodup ∧
          (d'.id ∈ reqValid.fm.selected_action → d'.tags.count t.id = 1)) ∧
      (∀ (d : Document) (tid : Nat),
          addTagToDoc (addTagToDoc d tid) tid = addTagToDoc d tid) :=
  C6_tag_propagates_idempotent dbA reqValid [] rfl (by decide) (by decide)

/-- C8: every created task's creator is the requester who submitted the
assignment, and the form-display phase pre-fills the assignee with the
requester. -/
theorem C8_creator_and_prefill (db : DB) (req : Request) (qs : List Nat) :
    (req.apply = false →
      (assign_validation_task db req qs).1 =
        Outcome.renderInitial req.fm.selected_action req.user qs) ∧
    (req.apply = true → formIsValid db req.fm = true →
      ∃ task : ValidationTask,
        (assign_validation_task db req qs).2.tasks = db.tasks ++ [task] ∧
        task.created_by = req.user) := by
  constructor
  · intro ha
    unfold assign_validation_task
    rw [ha]
    rfl
  · intro ha hv
    obtain ⟨hne, ⟨u, hu⟩, ⟨t, ht⟩⟩ := (formIsValid_iff db req.fm).mp hv
    rw [assign_apply_valid_eq db req qs u t ha hu ht hne]
    exact ⟨_, rfl, rfl⟩

/-- C8 witness: first render pre-fills the assignee with requester 1, and the
valid submission's created task has creator 2. -/
theorem C8_creator_and_prefill_witness :
    (assign_validation_task dbA reqDisplay [100, 101]).1 =
      Outcome.renderInitial reqDisplay.fm.selected_action reqDisplay.user [100, 101] ∧
    ∃ task : ValidationTask,
      (assign_validation_task dbA reqValid []).2.tasks = dbA.tasks ++ [task] ∧
      task.created_by = reqValid.user :=
  ⟨(C8_creator_and_prefill dbA reqDisplay [100, 101]).1 rfl,
   (C8_creator_and_prefill dbA reqValid []).2 rfl (by decide)⟩

/-- C9 counterexample: with valid assignee and tag but an empty submitted id
list, the submission does not succeed — the required hidden id field fails
validation, the form is re-rendered and the database is unchanged (no task
with an empty link set is created). -/
theorem C9_empty_selection_counterexample :
    (assign_validation_task dbA reqEmptySel []).1 =
      Outcome.renderBound reqEmptySel.fm [] ∧
    (assign_validation_task dbA reqEmptySel []).2 = dbA :=
  ⟨rfl, rfl⟩

/-- C9 amended: an empty submitted id list fails validation (the hidden
selected-ids field is required) and creates nothing; but a non-empty id list
none of whose ids resolve still succeeds with otherwise-valid fields: exactly
one task is created with an empty linked-document set, no document is
mutated, and the reported count is 0. -/
theorem C9_unresolved_ids_lenient (db : DB) (req : Request) (qs : List Nat)
    (ha : req.apply = true)
    (hu : (cleanedUserOf db req.fm).isSome = true)
    (ht : (cleanedTagOf db req.fm).isSome = true) :
    (req.fm.selected_action = [] →
      (assign_validation_task db req qs).1 = Outcome.renderBound req.fm qs ∧
      (assign_validation_task db req qs).2 = db) ∧
    (req.fm.selected_action ≠ [] →
      (∀ i ∈ req.fm.selected_action, documentExists db i = false) →
      (assign_validation_task db req qs).1 = Outcome.redirect 0 ∧
      (assign_validation_task db req qs).2.documents = db.documents ∧
      ∃ task : ValidationTask,
        (assign_validation_task db req qs).2.tasks = db.tasks ++ [task] ∧
        task.documents = []) := by
  obtain ⟨u, hu'⟩ := Option.isSome_iff_exists.mp hu
  obtain ⟨t, ht'⟩ := Option.isSome_iff_exists.mp ht
  constructor
  · intro hsel
    have hv : formIsValid db req.fm = false := by
      unfold formIsValid
      rw [hsel]
      rfl
    rw [assign_apply_invalid_eq db req qs ha hv]
    exact ⟨rfl, rfl⟩
  · intro hne hnores
    have hnotsel : ∀ d ∈ db.documents, d.id ∉ req.fm.selected_action := by
      intro d hdm hmem
      have hex : documentExists db d.id = true := by
        simp only [documentExists, List.any_eq_true, beq_iff_eq]
        exact ⟨d, hdm, rfl⟩
      rw [hnores d.id hmem] at hex
      cases hex
    have hnotselb : ∀ d ∈ db.documents,
        req.fm.selected_action.contains d.id = false := by
      intro d hdm
      simp [List.contains, List.elem_eq_mem, hnotsel d hdm]
    have hres : resolvedDocuments db req.fm.selected_action = [] := by
      rw [resolvedDocuments, List.filter_eq_nil_iff]
      intro d hdm hcd
      exact hnotsel d hdm (by simpa using hcd)
    rw [assign_apply_valid_eq db req qs u t ha hu' ht' hne]
    refine ⟨by rw [hres]; rfl, ?_, ?_⟩
    · show (db.documents.map fun d =>
        if req.fm.selected_action.contains d.id = true then addTagToDoc d t.id else d) =
          db.documents
      have hcong : ∀ d ∈ db.documents,
          (if req.fm.selected_action.contains d.id = true then addTagToDoc d t.id else d) =
            id d := by
        intro d hdm
        rw [hnotselb d hdm]
        rfl
      rw [List.map_congr_left hcong, List.map_id]
    · refine ⟨_, rfl, ?_⟩
      rw [hres]
      rfl

/-- C9 witness: a submission whose ids 999, 998 resolve to nothing still
redirects with count 0 and mutates no document. -/
theorem C9_unresolved_ids_lenient_witness :
    (assign_validation_task dbA reqGhostIds []).1 = Outcome.redirect 0 ∧
    (assign_validation_task dbA reqGhostIds []).2.documents = dbA.documents :=
  ⟨((C9_unresolved_ids_lenient dbA reqGhostIds [] rfl (by decide) (by decide)).2
      (by decide) (by decide)).1,
   ((C9_unresolved_ids_lenient dbA reqGhostIds [] rfl (by decide) (by decide)).2
      (by decide) (by decide)).2.1⟩

/-- C7: `has_add_permission` (permission to open the task-creation workflow)
returns true for a requester iff the requester is a superuser or belongs to
the Staff group, and false for every other requester. -/
theorem C7_has_add_permission_characterisation (u : User) :
    (has_add_permission u = true ↔ (u.is_superuser = true ∨ "Staff" ∈ u.groups)) ∧
    (has_add_permission u = false ↔ ¬(u.is_superuser = true ∨ "Staff" ∈ u.groups)) := by
  have h : has_add_permission u = true ↔ (u.is_superuser = true ∨ "Staff" ∈ u.groups) := by
    simp [has_add_permission, List.contains, List.elem_iff]
  refine ⟨h, ?_⟩
  rw [← h]
  cases has_add_permission u <;> simp

/-- C2: the task-list queryset returns all tasks for a superuser; exactly the
tasks whose creator or assignee is the requester for a non-superuser in the
Staff group; and the empty sequence for any other requester. -/
theorem C2_get_queryset_visibility (db : DB) (u : User) :
    (u.is_superuser = true → get_queryset db u = db.tasks) ∧
    (u.is_superuser = false → "Staff" ∈ u.groups →
      ∀ t : ValidationTask, t ∈ get_queryset db u ↔
        t ∈ db.tasks ∧ (t.created_by = u.id ∨ t.assigned_to = u.id)) ∧
    (u.is_superuser = false → "Staff" ∉ u.groups → get_queryset db u = []) := by
  refine ⟨?_, ?_, ?_⟩
  · intro hs
    simp [get_queryset, hs]
  · intro hs hg t
    have hc : u.groups.contains "Staff" = true := by
      simpa [List.contains, List.elem_iff] using hg
    simp [get_queryset, hs, hc, List.mem_filter, hg]
  · intro hs hg
    have hc : u.groups.contains "Staff" = false := by
      simpa [List.contains, List.elem_iff] using hg
    simp [get_queryset, hs, hc, hg]

/-- C2 witness: on the sample database, the superuser sees all tasks, the
unprivileged user sees none, and the Staff user sees the pre-existing task
assigned to them. -/
theorem C2_get_queryset_visibility_witness :
    get_queryset dbA superU = dbA.tasks ∧
    get_queryset dbA plainU = [] ∧
    dbA.tasks.get ⟨0, by decide⟩ ∈ get_queryset dbA staffU :=
  ⟨(C2_get_queryset_visibility dbA superU).1 rfl,
   (C2_get_queryset_visibility dbA plainU).2.2 rfl (by decide),
   ((C2_get_queryset_visibility dbA staffU).2.1 rfl (by decide)
      (dbA.tasks.get ⟨0, by decide⟩)).mpr
     ⟨List.get_mem _ _ _, Or.inr (by decide)⟩⟩

/-- C5: an apply-phase submission that fails validation re-renders the form
bound with its errors, creates no task, and leaves the whole database state
(documents, tag sets, tasks) unchanged. -/
theorem C5_invalid_form_no_side_effects (db : DB) (req : Request) (qs : List Nat)
    (ha : req.apply = true) (hv : formIsValid db req.fm = false) :
    (assign_validation_task db req qs).1 = Outcome.renderBound req.fm qs ∧
    (assign_validation_task db req qs).2 = db := by
  rw [assign_apply_invalid_eq db req qs ha hv]
  exact ⟨rfl, rfl⟩

/-- C5 witness: the submission with a blank assignee field is rejected with
the database unchanged. -/
theorem C5_invalid_form_no_side_effects_witness :
    (assign_validation_task dbA reqBlankAssignee [100]).1 =
      Outcome.renderBound reqBlankAssignee.fm [100] ∧
    (assign_validation_task dbA reqBlankAssignee [100]).2 = dbA :=
  C5_invalid_form_no_side_effects dbA reqBlankAssignee [100] rfl (by decide)

/-- C4 counterexample: a submission with a valid assignee and a non-empty
document-id list but no tag supplied does not succeed: the form is
re-rendered with errors and the database is unchanged (no task is created),
because the form's tag field is required. -/
theorem C4_tag_optional_counterexample :
    (assign_validation_task dbA reqNoTag [100]).1 =
      Outcome.renderBound reqNoTag.fm [100] ∧
    (assign_validation_task dbA reqNoTag [100]).2 = dbA :=
  ⟨rfl, rfl⟩

/-- C4 amended: the tag input is required, not optional: every apply-phase
submission whose tag field does not resolve to an existing tag is rejected
with a field error (the form is re-rendered bound) and no task is created,
the database left unchanged. -/
theorem C4_tag_required_no_task (db : DB) (req : Request) (qs : List Nat)
    (ha : req.apply = true) (ht : cleanedTagOf db req.fm = none) :
    (assign_validation_task db req qs).1 = Outcome.renderBound req.fm qs ∧
    (assign_validation_task db req qs).2 = db := by
  have hv : formIsValid db req.fm = false := by
    unfold formIsValid
    rw [ht]
    simp
  rw [assign_apply_invalid_eq db req qs ha hv]
  exact ⟨rfl, rfl⟩

/-- C4 witness for the amended claim, at the concrete tag-less submission. -/
theorem C4_tag_required_no_task_witness :
    (assign_validation_task dbA reqNoTag []).1 = Outcome.renderBound reqNoTag.fm [] ∧
    (assign_validation_task dbA reqNoTag []).2 = dbA :=
  C4_tag_required_no_task dbA reqNoTag [] rfl rfl

/-- C10: on a valid apply-phase submission, the whole result — outcome
(including the reported count) and the new database state (created task, its
linked documents, tag mutations) — does not depend on the originally-selected
queryset passed to the action, only on the resubmitted form data. -/
theorem C10_apply_ignores_queryset (db : DB) (req : Request) (qs₁ qs₂ : List Nat)
    (ha : req.apply = true) (hv : formIsValid db req.fm = true) :
    assign_validation_task db req qs₁ = assign_validation_task db req qs₂ := by
  obtain ⟨hne, ⟨u, hu⟩, ⟨t, ht⟩⟩ := (formIsValid_iff db req.fm).mp hv
  rw [assign_apply_valid_eq db req qs₁ u t ha hu ht hne,
      assign_apply_valid_eq db req qs₂ u t ha hu ht hne]

/-- C10 witness: the valid sample submission yields the same result for two
different querysets. -/
theorem C10_apply_ignores_queryset_witness :
    assign_validation_task dbA reqValid [100] =
      assign_validation_task dbA reqValid [100, 101, 102] :=
  C10_apply_ignores_queryset dbA reqValid [100] [100, 101, 102] rfl (by decide)

end Ged
